import Mathlib

/-!
Verification of the blog-summarizer repository.

The development shallowly embeds the two source files:
  * the server-side request handler `POST` of `src/app/page.js` (fetch the
    page, strip markup, prompt a completion service twice, shape the JSON
    response), and
  * the richer client component (URL validator, API-error mapper, retry with
    exponential backoff, caught-failure classifier, reset action).

External collaborators (the platform `fetch`, the WHATWG `URL` constructor,
the generative completion service, the wall clock) are modelled as opaque
function parameters or omitted fields; everything else is translated from
the JavaScript source.
-/

set_option autoImplicit false

/-- Models the JavaScript regular-expression class `\s` (whitespace) for the
character set relevant here: ASCII whitespace plus the Unicode space
characters that `\s` matches. -/
def isWs (c : Char) : Bool :=
  c = ' ' || c = '\t' || c = '\n' || c = '\r' || c = '\x0b' || c = '\x0c' ||
  c = '\u00A0' || c = '\u1680' || ('\u2000' ≤ c && c ≤ '\u200A') ||
  c = '\u2028' || c = '\u2029' || c = '\u202F' || c = '\u205F' ||
  c = '\u3000' || c = '\uFEFF'

/-- Whether `pat` occurs at the head of `l`. -/
def firstMatches : List Char → List Char → Bool
  | [], _ => true
  | _ :: _, [] => false
  | a :: as, b :: bs => a = b && firstMatches as bs

/-- Whether `pat` occurs as a contiguous substring of `l`; models the
JavaScript `String.includes` and the escaped-literal regular expressions of
the validator's pattern list. -/
def occursIn (pat : List Char) : List Char → Bool
  | [] => firstMatches pat []
  | c :: rest => firstMatches pat (c :: rest) || occursIn pat rest

/-- One pass of the tag-stripping substitution `.replace(/<[^>]*>?/gm, ' ')`
of the server handler: in copy state (`inTag = false`) a `<` opens a tag and
is replaced by one space; in tag state characters are consumed up to and
including the next `>` (or to the end of the input for an unterminated
tag). -/
def stripTagsAux : Bool → List Char → List Char
  | _, [] => []
  | true, '>' :: rest => stripTagsAux false rest
  | true, _ :: rest => stripTagsAux true rest
  | false, '<' :: rest => ' ' :: stripTagsAux true rest
  | false, c :: rest => c :: stripTagsAux false rest

/-- The global substitution `.replace(/<[^>]*>?/gm, ' ')`. -/
def stripTags (l : List Char) : List Char := stripTagsAux false l

/-- The whitespace-collapsing substitution `.replace(/\s+/g, ' ')` as a state
machine: `inRun` records whether the previous input character belonged to a
whitespace run whose single replacement space was already emitted. -/
def collapseWsAux : Bool → List Char → List Char
  | _, [] => []
  | inRun, c :: rest =>
    if isWs c then
      if inRun then collapseWsAux true rest
      else ' ' :: collapseWsAux true rest
    else c :: collapseWsAux false rest

/-- The global substitution `.replace(/\s+/g, ' ')`. -/
def collapseWs (l : List Char) : List Char := collapseWsAux false l

/-- Removes trailing whitespace characters (the right half of
`String.prototype.trim`, a platform builtin). -/
def dropTrailing : List Char → List Char
  | [] => []
  | c :: rest =>
    match dropTrailing rest with
    | [] => if isWs c then [] else [c]
    | r => c :: r

/-- Models `String.prototype.trim`: whitespace removed from both ends. -/
def trimChars (l : List Char) : List Char := dropTrailing (l.dropWhile isWs)

/-- Models `String.prototype.trim` on strings. -/
def jsTrim (s : String) : String := String.mk (trimChars s.data)

/-- The text extraction of the server handler, `src/app/page.js`:
`html.replace(/<[^>]*>?/gm, ' ').replace(/\s+/g, ' ').trim()`. -/
def extractText (html : String) : String :=
  String.mk (trimChars (collapseWs (stripTags html.data)))

/-- No two adjacent whitespace characters anywhere in the list. -/
def noAdjWs : List Char → Bool
  | [] => true
  | [_] => true
  | a :: b :: rest => !(isWs a && isWs b) && noAdjWs (b :: rest)

/-- The first character, if any, is not whitespace. -/
def noLeadingWs : List Char → Bool
  | [] => true
  | c :: _ => !isWs c

/-- The last character, if any, is not whitespace. -/
def noTrailingWs (l : List Char) : Bool :=
  match l.getLast? with
  | some c => !isWs c
  | none => true

/-- The JSON response of the server handler: HTTP status plus the three
possible body fields (`summary`, `urduTranslation`, `error`), each present or
absent. -/
structure ApiResponse where
  status : Nat
  summary : Option String
  urduTranslation : Option String
  error : Option String
deriving DecidableEq, Repr

/-- The summarization prompt of the server handler, including the truncation
`textContent.slice(0, 12000)` to the first 12,000 characters. -/
def promptSummary (textContent : String) : String :=
  "Summarize this blog in 5 clear sentences:\n\n" ++ textContent.take 12000

/-- The translation prompt of the server handler, applied to the summary
string returned by the first completion call. -/
def promptTranslate (summary : String) : String :=
  "Translate the following summary into formal Urdu:\n\n" ++ summary

/-- The fixed generic message of the handler's catch-all error response. -/
def genericErrorMessage : String := "An error occurred while processing your request."

/-- The fallible body of the server handler's `try` block, `src/app/page.js`:
parse the request body, fetch the page, extract its text, and issue the two
completion calls. `reqJson` is the result of `req.json()` (the `url` field),
`fetchText` models `fetch` followed by `response.text()`, and
`generateContent` models `model.generateContent(...).response.text()`, each
an opaque external call that either returns text or throws (carrying an
opaque error value). -/
def summarizePipeline (reqJson : Except String String)
    (fetchText : String → Except String String)
    (generateContent : String → Except String String) :
    Except String (String × String) := do
  let url ← reqJson
  let html ← fetchText url
  let textContent := extractText html
  let summary ← generateContent (promptSummary textContent)
  let urduTranslation ← generateContent (promptTranslate summary)
  pure (summary, urduTranslation)

/-- The server request handler `POST` of `src/app/page.js`: on success it
returns `NextResponse.json({ summary, urduTranslation })` (status 200); any
exception is caught once at the top level and converted to
`NextResponse.json({ error: ... }, { status: 500 })`. -/
def POST (reqJson : Except String String)
    (fetchText : String → Except String String)
    (generateContent : String → Except String String) : ApiResponse :=
  match summarizePipeline reqJson fetchText generateContent with
  | Except.ok (s, u) =>
    { status := 200, summary := some s, urduTranslation := some u, error := none }
  | Except.error _ =>
    { status := 500, summary := none, urduTranslation := none, error := some genericErrorMessage }

/-- The eight error kinds of the richer client's `ERROR_TYPES` table. -/
inductive ErrorType
  | network
  | validation
  | server
  | timeout
  | rate_limit
  | invalid_url
  | content_not_found
  | unknown
deriving DecidableEq, Repr

/-- The shapes taken by the `details` payload at the various `createError`
call sites of the richer client (`{ url }`, `{ originalError }`,
`{ status }`, `{ status, retryAfter }`, `{ data }`). -/
inductive ErrorDetails
  | urlDetail (url : String)
  | originalError (message : String)
  | statusDetail (status : Nat)
  | statusRetryAfter (status : Nat) (retryAfter : Option Nat)
  | responseData (raw : String)
deriving DecidableEq, Repr

/-- The structured error record built by `createError`. The `timestamp`
field (`new Date().toISOString()`, a wall-clock read) is omitted as external
nondeterminism; no claim mentions it. -/
structure StructuredError where
  type : ErrorType
  message : String
  details : Option ErrorDetails
  recoverable : Bool
deriving DecidableEq, Repr

/-- The client's `createError(type, message, details = null, recoverable =
true)` factory, with the two defaulted arguments passed explicitly. -/
def createError (type : ErrorType) (message : String)
    (details : Option ErrorDetails) (recoverable : Bool) : StructuredError :=
  { type := type, message := message, details := details, recoverable := recoverable }

/-- The fixed pattern list `blogPatterns` of the client validator. Every
regular expression in the source list is a literal (its dots escaped), so
each test is a substring match on the candidate URL string. -/
def blogPatterns : List String :=
  ["medium.com", "wordpress.com", "blogspot.com", "substack.com",
   "dev.to", "hashnode.com", ".blog", "/blog/", "/post/", "/article/"]

/-- The client's `blogPatterns.some(pattern => pattern.test(url))`. -/
def isLikelyBlog (url : String) : Bool :=
  blogPatterns.any (fun p => occursIn p.data url.data)

/-- The client's `validateUrl`. The WHATWG `URL` constructor is an external
platform API; it is modelled as the opaque parameter `parseProtocol`, which
either returns `urlObject.protocol` (scheme plus `":"`) or throws with an
error message, exactly the two behaviors the validator observes. -/
def validateUrl (parseProtocol : String → Except String String)
    (url : String) : Option StructuredError :=
  if jsTrim url = "" then
    some (createError ErrorType.validation "Please enter a URL" none true)
  else
    match parseProtocol url with
    | Except.error errMessage =>
      some (createError ErrorType.invalid_url "Invalid URL format. Please check your URL."
        (some (ErrorDetails.originalError errMessage)) true)
    | Except.ok protocol =>
      if !(["http:", "https:"].contains protocol) then
        some (createError ErrorType.invalid_url "URL must use HTTP or HTTPS protocol" none true)
      else if !(isLikelyBlog url) then
        some (createError ErrorType.validation
          "This doesn\x27t appear to be a blog URL. Please verify the link."
          (some (ErrorDetails.urlDetail url)) true)
      else
        none

/-- JavaScript's `a || b` on an optional string field: the fallback is used
when the field is absent or is the empty (falsy) string. -/
def jsOr (v : Option String) (fallback : String) : String :=
  match v with
  | some s => if s = "" then fallback else s
  | none => fallback

/-- The client's `handleApiError(response, data)`, switching on
`response.status`; `dataError` is `data.error` and `retryAfter` is
`data.retryAfter`. -/
def handleApiError (status : Nat) (dataError : Option String)
    (retryAfter : Option Nat) : StructuredError :=
  match status with
  | 400 => createError ErrorType.validation
      (jsOr dataError "Invalid request. Please check your URL.")
      (some (ErrorDetails.statusDetail 400)) true
  | 404 => createError ErrorType.content_not_found
      "Blog post not found or unable to access content."
      (some (ErrorDetails.statusDetail 404)) true
  | 429 => createError ErrorType.rate_limit
      "Too many requests. Please wait a moment and try again."
      (some (ErrorDetails.statusRetryAfter 429 retryAfter)) true
  | 500 => createError ErrorType.server
      "Server error. Please try again later."
      (some (ErrorDetails.statusDetail 500)) true
  | 503 => createError ErrorType.server
      "Service temporarily unavailable. Please try again later."
      (some (ErrorDetails.statusDetail 503)) true
  | s => createError ErrorType.unknown
      (jsOr dataError ("Unexpected error (" ++ toString s ++ ")"))
      (some (ErrorDetails.statusDetail s)) true

/-- Whether an `Except` value is a success. -/
def isOkE {ε α : Type} : Except ε α → Bool
  | Except.ok _ => true
  | Except.error _ => false

/-- The recursive `attempt(retryCount)` closure of the client's
`retryWithBackoff`. The wrapped promise-returning function `fn` is modelled
as the sequence of outcomes of its successive invocations: `fn n` is what
the `(n+1)`-th invocation settles to. The result pairs the settled value
with the list of delays scheduled via `setTimeout`, in order: on failure
with `retryCount < maxRetries` the next attempt is scheduled after
`delay * 2 ^ retryCount` milliseconds. -/
def attempt {ε α : Type} (fn : Nat → Except ε α) (maxRetries delay : Nat)
    (retryCount : Nat) : Except ε α × List Nat :=
  match fn retryCount with
  | Except.ok a => (Except.ok a, [])
  | Except.error e =>
    if h : retryCount ≥ maxRetries then
      (Except.error e, [])
    else
      let nextDelay := delay * 2 ^ retryCount
      let rest := attempt fn maxRetries delay (retryCount + 1)
      (rest.1, nextDelay :: rest.2)
termination_by maxRetries - retryCount
decreasing_by simp at h; omega

/-- The client's `retryWithBackoff(fn, maxRetries = 3, delay = 1000)`:
start with `attempt(0)`. -/
def retryWithBackoff {ε α : Type} (fn : Nat → Except ε α)
    (maxRetries delay : Nat) : Except ε α × List Nat :=
  attempt fn maxRetries delay 0

/-- A value caught by the client's `catch` block: either a thrown JavaScript
error carrying `name` and `message`, or one of the client's own structured
error objects (a plain object, whose `name` property is `undefined` and
whose `type` property is a truthy string). -/
inductive CaughtValue
  | exn (name : String) (message : String)
  | structured (e : StructuredError)
deriving DecidableEq, Repr

/-- The `err.name` property of a caught value (`undefined` on a plain
structured-error object). -/
def caughtName : CaughtValue → Option String
  | CaughtValue.exn n _ => some n
  | CaughtValue.structured _ => none

/-- The error classification of the `catch` block of `handleSummarize`:
`err.name === 'AbortError'` first, then the `err.type` pass-through, then
`TypeError` whose message mentions `fetch`, then the unknown fallback. -/
def classifyError (v : CaughtValue) : StructuredError :=
  if caughtName v = some "AbortError" then
    createError ErrorType.timeout
      "Request timed out. The blog might be too large or the server is busy." none true
  else
    match v with
    | CaughtValue.structured e => e
    | CaughtValue.exn n m =>
      if n = "TypeError" && occursIn "fetch".data m.data then
        createError ErrorType.network
          "Network error. Please check your connection and try again."
          (some (ErrorDetails.originalError m)) true
      else
        createError ErrorType.unknown
          "An unexpected error occurred. Please try again."
          (some (ErrorDetails.originalError m)) true

/-- The error set when `handleSummarize` starts while `navigator.onLine` is
false. -/
def offlineNetworkError : StructuredError :=
  createError ErrorType.network
    "No internet connection. Please check your network and try again." none true

/-- The error thrown by `apiCall` when the response body lacks
`data.summary`, `data.summary.title` or `data.summary.englishSummary`;
`raw` stands for the offending response data captured in `details`. -/
def invalidResponseError (raw : String) : StructuredError :=
  createError ErrorType.server "Invalid response from server. Please try again."
    (some (ErrorDetails.responseData raw)) true

/-- The error set by `copyToClipboard` when `navigator.clipboard.writeText`
throws: the only `createError` call site passing `recoverable = false`. -/
def clipboardCopyError (originalMessage : String) : StructuredError :=
  createError ErrorType.unknown "Failed to copy text to clipboard"
    (some (ErrorDetails.originalError originalMessage)) false

/-- The `summary` payload rendered by the richer client. -/
structure SummaryData where
  title : String
  englishSummary : String
  urduSummary : String
  readingTime : Option String
  wordCount : Option String
  keyPoints : List String
deriving DecidableEq, Repr

/-- The richer client component's state cells (`useState` hooks), omitting
the purely decorative particle animation. -/
structure ClientState where
  url : String
  loading : Bool
  error : Option StructuredError
  summary : Option SummaryData
  copied : Bool
  activeTab : String
  retryCount : Nat
  isOnline : Bool
deriving DecidableEq, Repr

/-- The client's `resetForm`: sets `url`, `summary`, `error`, `activeTab`
and `retryCount` back to their defaults. It does not touch `loading`,
`copied` or `isOnline`. -/
def resetForm (s : ClientState) : ClientState :=
  { s with url := "", summary := none, error := none,
           activeTab := "english", retryCount := 0 }

/-- Scheme characters permitted after the first position of a URL scheme. -/
def isSchemeChar (c : Char) : Bool :=
  c.isAlphanum || c = '+' || c = '-' || c = '.'

/-- Splits a leading run of scheme characters at the first `:`; fails when a
non-scheme character appears first or the input ends before a `:`. -/
def schemeSplit : List Char → Option (List Char)
  | [] => none
  | c :: rest =>
    if c = ':' then some []
    else if isSchemeChar c then (schemeSplit rest).map (fun t => c :: t)
    else none

/-- Modelled from the spec: the WHATWG `URL` constructor used by
`validateUrl` is a browser platform API, not code of this repository. This
simplified model accepts a string whose head is an ASCII letter followed by
scheme characters up to a `:`, returning the scheme plus `":"` as the
`protocol`, and throws (`Except.error`) otherwise, matching the spec's
"parses as an absolute URL" on every input the claims exercise. -/
def parseProtocolModel (s : String) : Except String String :=
  match s.data with
  | [] => Except.error "Invalid URL"
  | c :: _ =>
    if c.isAlpha then
      match schemeSplit s.data with
      | some scheme => Except.ok (String.mk (scheme ++ [':']))
      | none => Except.error "Invalid URL"
    else Except.error "Invalid URL"

/-- A wrapped call that fails on its first two invocations and succeeds on
its third. -/
def failTwiceFn : Nat → Except String String :=
  fun n => if n < 2 then Except.error ("fail " ++ toString n) else Except.ok "success"

/-- A wrapped call that fails on every invocation. -/
def failAlwaysFn : Nat → Except String String :=
  fun n => Except.error ("fail " ++ toString n)

/-- A client state reached mid-interaction: a copy just succeeded, the Urdu
tab is active, and two retries have been counted. -/
def sampleStateA : ClientState :=
  { url := "https://medium.com/@x/y", loading := false, error := none,
    summary := none, copied := true, activeTab := "urdu", retryCount := 2,
    isOnline := true }

/-- The same state with the `copied` flag cleared. -/
def sampleStateB : ClientState :=
  { sampleStateA with copied := false }

/-- Helper: the attempt loop looks only at whether each invocation succeeds,
never at the failure value, so two wrapped calls whose invocations succeed
and fail in the same pattern produce the same delay schedule and the same
final outcome kind. -/
theorem attempt_blind (ε ε' α α' : Type) (fn : Nat → Except ε α)
    (fn' : Nat → Except ε' α') (maxRetries delay : Nat)
    (h : ∀ n, isOkE (fn n) = isOkE (fn' n)) :
    ∀ k retryCount, maxRetries - retryCount ≤ k →
      (attempt fn maxRetries delay retryCount).2 =
        (attempt fn' maxRetries delay retryCount).2 ∧
      isOkE (attempt fn maxRetries delay retryCount).1 =
        isOkE (attempt fn' maxRetries delay retryCount).1 := by
  intro k
  induction k with
  | zero =>
    intro rc hrc
    have hge : rc ≥ maxRetries := by omega
    cases hfn : fn rc with
    | ok a =>
      cases hfn' : fn' rc with
      | ok a' => simp [attempt, hfn, hfn', isOkE]
      | error e' =>
        have := h rc
        rw [hfn, hfn'] at this
        simp [isOkE] at this
    | error e =>
      cases hfn' : fn' rc with
      | ok a' =>
        have := h rc
        rw [hfn, hfn'] at this
        simp [isOkE] at this
      | error e' => simp [attempt, hfn, hfn', hge, isOkE]
  | succ k ih =>
    intro rc hrc
    cases hfn : fn rc with
    | ok a =>
      cases hfn' : fn' rc with
      | ok a' => simp [attempt, hfn, hfn', isOkE]
      | error e' =>
        have := h rc
        rw [hfn, hfn'] at this
        simp [isOkE] at this
    | error e =>
      cases hfn' : fn' rc with
      | ok a' =>
        have := h rc
        rw [hfn, hfn'] at this
        simp [isOkE] at this
      | error e' =>
        by_cases hge : rc ≥ maxRetries
        · simp [attempt, hfn, hfn', hge, isOkE]
        · have hih := ih (rc + 1) (by omega)
          rw [attempt.eq_def fn maxRetries delay rc,
              attempt.eq_def fn' maxRetries delay rc, hfn, hfn']
          simp [hge, hih.1]
          exact hih.2

/-- C10: the retry wrapper's decision to retry is independent of the failure
value: for any two wrapped calls whose successive invocations succeed and
fail in the same pattern — whatever the rejected values are, structured API
errors (a 400 validation error, a 429 rate-limit error with a `retryAfter`
hint) or transport failures alike — the scheduled delays are identical and
the final outcome kind is the same, so the error's type, `recoverable` flag
and `retryAfter` hint never influence the schedule. -/
theorem retry_error_blind (ε ε' α α' : Type) (fn : Nat → Except ε α)
    (fn' : Nat → Except ε' α') (maxRetries delay : Nat)
    (h : ∀ n, isOkE (fn n) = isOkE (fn' n)) :
    (retryWithBackoff fn maxRetries delay).2 =
      (retryWithBackoff fn' maxRetries delay).2 ∧
    isOkE (retryWithBackoff fn maxRetries delay).1 =
      isOkE (retryWithBackoff fn' maxRetries delay).1 :=
  attempt_blind ε ε' α α' fn fn' maxRetries delay h maxRetries 0 (by omega)

/-- Witness for C10: a wrapped call that always rejects with the structured
429 rate-limit error (carrying a `retryAfter` hint of 7) is retried on
exactly the same schedule as one that always rejects with a `TypeError`
transport failure, and likewise for a structured 400 validation error. -/
theorem retry_error_blind_witness :
    ((retryWithBackoff
        (fun _ => (Except.error (handleApiError 429 none (some 7)) : Except StructuredError Unit))
        3 1000).2 =
      (retryWithBackoff
        (fun _ => (Except.error (CaughtValue.exn "TypeError" "Failed to fetch") : Except CaughtValue Unit))
        3 1000).2) ∧
    ((retryWithBackoff
        (fun _ => (Except.error (handleApiError 400 (some "Invalid request") none) : Except StructuredError Unit))
        3 1000).2 =
      (retryWithBackoff
        (fun _ => (Except.error (CaughtValue.exn "TypeError" "Failed to fetch") : Except CaughtValue Unit))
        3 1000).2) :=
  ⟨(retry_error_blind StructuredError CaughtValue Unit Unit _ _ 3 1000 (fun _ => rfl)).1,
   (retry_error_blind StructuredError CaughtValue Unit Unit _ _ 3 1000 (fun _ => rfl)).1⟩

/-- C3 counterexample: for the wrapped call that fails twice then succeeds,
with base delay 1000 and max retries 3, the wrapper resolves with the third
invocation's result, but the delay scheduled between the second failure and
the third attempt is 2000 milliseconds, not the claimed 4000: the exponent
is the zero-based index of the attempt that failed, which is 1 at the
second failure. -/
theorem retry_second_delay_cex :
    (retryWithBackoff failTwiceFn 3 1000).1 = Except.ok "success" ∧
    (retryWithBackoff failTwiceFn 3 1000).2 = [1000, 2000] ∧
    ¬ (retryWithBackoff failTwiceFn 3 1000).2.getLast? = some 4000 := by
  refine ⟨?_, ?_, ?_⟩ <;> simp [retryWithBackoff, attempt, failTwiceFn]

/-- C3 amended: for every wrapped call failing on its first two invocations
and succeeding on its third, the wrapper with base delay 1000 and max
retries 3 resolves with the third invocation's result, and the scheduled
delays are 1000 before the second attempt and 1000 * 2 ^ 1 = 2000 — not
4000 — between the second failure and the third attempt. -/
theorem retry_third_attempt (ε α : Type) (fn : Nat → Except ε α) (e0 e1 : ε)
    (a : α) (h0 : fn 0 = Except.error e0) (h1 : fn 1 = Except.error e1)
    (h2 : fn 2 = Except.ok a) :
    retryWithBackoff fn 3 1000 = (Except.ok a, [1000, 2000]) := by
  simp [retryWithBackoff, attempt, h0, h1, h2]

/-- Witness for the amended C3 at the concrete fail-twice call. -/
theorem retry_third_attempt_witness :
    retryWithBackoff failTwiceFn 3 1000 = (Except.ok "success", [1000, 2000]) :=
  retry_third_attempt String String failTwiceFn "fail 0" "fail 1" "success" rfl rfl rfl

/-- C6: for every wrapped call failing on every invocation, the wrapper with
base delay 1000 and max retries 3 schedules the successive attempts after
delays 1000 * 2 ^ 0, 1000 * 2 ^ 1, 1000 * 2 ^ 2 — exponential in the
zero-based index of the failed attempt — and after exhausting the retries
rejects with the last failure (the error of the fourth invocation) rather
than looping further. -/
theorem retry_exhaustion (ε α : Type) (fn : Nat → Except ε α) (err : Nat → ε)
    (h : ∀ n, fn n = Except.error (err n)) :
    (retryWithBackoff fn 3 1000).2 = (List.range 3).map (fun i => 1000 * 2 ^ i) ∧
    (retryWithBackoff fn 3 1000).1 = Except.error (err 3) := by
  constructor <;> simp [retryWithBackoff, attempt, h, List.range_succ]

/-- Witness for C6 at the concrete always-failing call. -/
theorem retry_exhaustion_witness :
    (retryWithBackoff failAlwaysFn 3 1000).2 = (List.range 3).map (fun i => 1000 * 2 ^ i) ∧
    (retryWithBackoff failAlwaysFn 3 1000).1 = Except.error ("fail " ++ toString 3) :=
  retry_exhaustion String String failAlwaysFn (fun n => "fail " ++ toString n) (fun _ => rfl)

/-- C1: for every request whose body parses to a `url`, if the page fetch
succeeds and both completion calls succeed, the handler returns status 200
with a body that is exactly `{ summary, urduTranslation }` (no `error`
field), where `summary` is the completion of the 5-sentence-summary prompt
over the first 12,000 characters of the extracted text and
`urduTranslation` is the completion of the formal-Urdu-translation prompt
applied to that summary string, not to the original article text. -/
theorem POST_success_shape (url html s u : String)
    (fetchText generateContent : String → Except String String)
    (hf : fetchText url = Except.ok html)
    (hs : generateContent (promptSummary (extractText html)) = Except.ok s)
    (ht : generateContent (promptTranslate s) = Except.ok u) :
    POST (Except.ok url) fetchText generateContent =
      { status := 200, summary := some s, urduTranslation := some u, error := none } := by
  simp [POST, summarizePipeline, hf, hs, ht, Bind.bind, Except.bind, Functor.map,
    Except.map, pure, Except.pure]

/-- Witness for C1 with a concrete fetch and a concrete completion
function. -/
theorem POST_success_shape_witness :
    POST (Except.ok "https://blog.example/post")
      (fun _ => Except.ok "<p>Hi there</p>")
      (fun p => Except.ok ("GEN:" ++ p)) =
      { status := 200,
        summary := some ("GEN:" ++ promptSummary (extractText "<p>Hi there</p>")),
        urduTranslation :=
          some ("GEN:" ++ promptTranslate ("GEN:" ++ promptSummary (extractText "<p>Hi there</p>"))),
        error := none } :=
  POST_success_shape "https://blog.example/post" "<p>Hi there</p>" _ _ _ _ rfl rfl rfl

/-- C2: whenever any step of the handler's try block throws — request-body
parse, fetch, summarization or translation — the handler returns HTTP 500
with the fixed generic `error` message and neither a `summary` nor an
`urduTranslation` field; moreover on every input the response carries the
`summary` field exactly when it carries the `urduTranslation` field, so no
partial result is ever returned. -/
theorem POST_failure_shape (reqJson : Except String String)
    (fetchText generateContent : String → Except String String) :
    (∀ e, summarizePipeline reqJson fetchText generateContent = Except.error e →
      POST reqJson fetchText generateContent =
        { status := 500, summary := none, urduTranslation := none,
          error := some genericErrorMessage }) ∧
    ((POST reqJson fetchText generateContent).summary = none ↔
      (POST reqJson fetchText generateContent).urduTranslation = none) := by
  constructor
  · intro e he
    simp [POST, he]
  · cases hp : summarizePipeline reqJson fetchText generateContent with
    | ok p => cases p with
      | mk s u => simp [POST, hp]
    | error e => simp [POST, hp]

/-- Witness for C2: a fetch that fails outright yields the fixed 500
response with no summary fields. -/
theorem POST_failure_shape_witness :
    POST (Except.ok "https://blog.example/post")
      (fun _ => Except.error "fetch failed")
      (fun p => Except.ok ("GEN:" ++ p)) =
      { status := 500, summary := none, urduTranslation := none,
        error := some genericErrorMessage } :=
  (POST_failure_shape (Except.ok "https://blog.example/post")
      (fun _ => Except.error "fetch failed")
      (fun p => Except.ok ("GEN:" ++ p))).1 "fetch failed" rfl

/-- C4: the validator's classification, for any parser behavior of the
platform URL constructor: a `validation`-typed error when the candidate is
empty after trimming; an `invalid_url`-typed error when the constructor
throws or yields a scheme other than http/https; an advisory
`validation`-typed error for a valid http/https URL matching none of the
fixed blog-hosting patterns; no error otherwise — in particular
`https://example.com/` yields a validation warning and
`https://medium.com/@x/y` yields no error. -/
theorem validateUrl_spec (parseProtocol : String → Except String String) :
    (∀ url, jsTrim url = "" →
      validateUrl parseProtocol url =
        some (createError ErrorType.validation "Please enter a URL" none true)) ∧
    (∀ url e, jsTrim url ≠ "" → parseProtocol url = Except.error e →
      (validateUrl parseProtocol url).map StructuredError.type = some ErrorType.invalid_url) ∧
    (∀ url proto, jsTrim url ≠ "" → parseProtocol url = Except.ok proto →
      proto ≠ "http:" → proto ≠ "https:" →
      (validateUrl parseProtocol url).map StructuredError.type = some ErrorType.invalid_url) ∧
    (∀ url proto, jsTrim url ≠ "" → parseProtocol url = Except.ok proto →
      (proto = "http:" ∨ proto = "https:") → isLikelyBlog url = false →
      (validateUrl parseProtocol url).map StructuredError.type = some ErrorType.validation) ∧
    (∀ url proto, jsTrim url ≠ "" → parseProtocol url = Except.ok proto →
      (proto = "http:" ∨ proto = "https:") → isLikelyBlog url = true →
      validateUrl parseProtocol url = none) ∧
    (parseProtocol "https://example.com/" = Except.ok "https:" →
      (validateUrl parseProtocol "https://example.com/").map StructuredError.type =
        some ErrorType.validation) ∧
    (parseProtocol "https://medium.com/@x/y" = Except.ok "https:" →
      validateUrl parseProtocol "https://medium.com/@x/y" = none) := by
  refine ⟨?_, ?_, ?_, ?_, ?_, ?_, ?_⟩
  · intro url h
    simp [validateUrl, h]
  · intro url e h hp
    simp [validateUrl, createError, h, hp]
  · intro url proto h hp h1 h2
    simp [validateUrl, createError, h, hp, h1, h2]
  · intro url proto h hp hor hblog
    rcases hor with h1 | h1 <;> subst h1 <;>
      simp [validateUrl, createError, h, hp, hblog]
  · intro url proto h hp hor hblog
    rcases hor with h1 | h1 <;> subst h1 <;>
      simp [validateUrl, createError, h, hp, hblog]
  · intro hp
    have h : ¬ jsTrim "https://example.com/" = "" := by decide
    have hblog : isLikelyBlog "https://example.com/" = false := by decide
    simp [validateUrl, createError, h, hp, hblog]
  · intro hp
    have h : ¬ jsTrim "https://medium.com/@x/y" = "" := by decide
    have hblog : isLikelyBlog "https://medium.com/@x/y" = true := by decide
    simp [validateUrl, createError, h, hp, hblog]

/-- Witness for C4 with the concrete model of the URL constructor: the
non-blog URL draws the advisory warning, the Medium URL passes clean. -/
theorem validateUrl_spec_witness :
    (validateUrl parseProtocolModel "https://example.com/").map StructuredError.type =
      some ErrorType.validation ∧
    validateUrl parseProtocolModel "https://medium.com/@x/y" = none :=
  ⟨(validateUrl_spec parseProtocolModel).2.2.2.2.2.1 rfl,
   (validateUrl_spec parseProtocolModel).2.2.2.2.2.2 rfl⟩

/-- C5: the catch-block classifier assigns exactly one structured error by
the code's precedence: a caught value whose `name` is `AbortError` is
classified `timeout`; otherwise an already-structured error (one carrying a
`type` field) is passed through unchanged; otherwise a `TypeError` whose
message mentions `fetch` is classified `network`; any other failure is
classified `unknown`. -/
theorem classifyError_spec :
    (∀ v, caughtName v = some "AbortError" →
      (classifyError v).type = ErrorType.timeout) ∧
    (∀ e, classifyError (CaughtValue.structured e) = e) ∧
    (∀ n m, n = "TypeError" → occursIn "fetch".data m.data = true →
      (classifyError (CaughtValue.exn n m)).type = ErrorType.network) ∧
    (∀ n m, n ≠ "AbortError" →
      (n = "TypeError" && occursIn "fetch".data m.data) = false →
      (classifyError (CaughtValue.exn n m)).type = ErrorType.unknown) := by
  refine ⟨?_, ?_, ?_, ?_⟩
  · intro v h
    simp [classifyError, createError, h]
  · intro e
    simp [classifyError, caughtName]
  · intro n m hn hm
    subst hn
    simp [classifyError, createError, caughtName, hm]
  · intro n m hn hm
    simp [classifyError, createError, caughtName, hn, hm]

/-- Witness for C5 at one concrete caught value of each kind. -/
theorem classifyError_spec_witness :
    (classifyError (CaughtValue.exn "AbortError" "Aborted")).type = ErrorType.timeout ∧
    classifyError (CaughtValue.structured (handleApiError 429 none (some 3))) =
      handleApiError 429 none (some 3) ∧
    (classifyError (CaughtValue.exn "TypeError" "Failed to fetch")).type = ErrorType.network ∧
    (classifyError (CaughtValue.exn "RangeError" "boom")).type = ErrorType.unknown :=
  ⟨classifyError_spec.1 (CaughtValue.exn "AbortError" "Aborted") rfl,
   classifyError_spec.2.1 (handleApiError 429 none (some 3)),
   classifyError_spec.2.2.1 "TypeError" "Failed to fetch" rfl (by decide),
   classifyError_spec.2.2.2 "RangeError" "boom" (by decide) (by decide)⟩

/-- C8: every structured error constructed in the richer client — by the
URL validator, the API-error mapper, the catch-block classifier's own
constructions, the offline guard, and the invalid-response check — carries
`recoverable = true`; the single exception is the clipboard-copy failure
error, which carries `recoverable = false`. -/
theorem recoverable_invariant :
    (∀ parseProtocol url e, validateUrl parseProtocol url = some e →
      e.recoverable = true) ∧
    (∀ status dataError retryAfter,
      (handleApiError status dataError retryAfter).recoverable = true) ∧
    (∀ n m, (classifyError (CaughtValue.exn n m)).recoverable = true) ∧
    offlineNetworkError.recoverable = true ∧
    (∀ raw, (invalidResponseError raw).recoverable = true) ∧
    (∀ m, (clipboardCopyError m).recoverable = false) := by
  refine ⟨?_, ?_, ?_, rfl, fun _ => rfl, fun _ => rfl⟩
  · intro parseProtocol url e h
    simp only [validateUrl] at h
    split at h
    · cases h
      rfl
    · split at h
      · cases h
        rfl
      · split at h
        · cases h
          rfl
        · split at h
          · cases h
            rfl
          · cases h
  · intro status dataError retryAfter
    unfold handleApiError
    split <;> rfl
  · intro n m
    simp only [classifyError, caughtName]
    split
    · rfl
    · split <;> rfl

/-- Witness for C8: the empty-URL validation error is recoverable, the
clipboard-copy error is not. -/
theorem recoverable_invariant_witness :
    (createError ErrorType.validation "Please enter a URL" none true).recoverable = true ∧
    (clipboardCopyError "denied").recoverable = false :=
  ⟨recoverable_invariant.1 parseProtocolModel ""
     (createError ErrorType.validation "Please enter a URL" none true) rfl,
   recoverable_invariant.2.2.2.2.2 "denied"⟩

/-- C9 counterexample: reset is not a constant function on the client
state — two prior states differing only in the `copied` flag reset to
different states, because `resetForm` leaves `loading`, `copied` and
`isOnline` untouched. -/
theorem resetForm_not_constant_cex :
    resetForm sampleStateA ≠ resetForm sampleStateB := by
  decide

/-- C9 amended: reset restores `url`, `summary`, `error`, `activeTab` and
`retryCount` to their fixed defaults regardless of prior state, and is
idempotent (reset after reset changes nothing); it is not constant on the
whole client state, since the `loading`, `copied` and online-status cells
pass through unchanged. -/
theorem resetForm_defaults_idempotent (s : ClientState) :
    (resetForm s).url = "" ∧ (resetForm s).summary = none ∧
    (resetForm s).error = none ∧ (resetForm s).activeTab = "english" ∧
    (resetForm s).retryCount = 0 ∧
    resetForm (resetForm s) = resetForm s ∧
    (resetForm s).loading = s.loading ∧ (resetForm s).copied = s.copied ∧
    (resetForm s).isOnline = s.isOnline :=
  ⟨rfl, rfl, rfl, rfl, rfl, rfl, rfl, rfl, rfl⟩

/-- Helper: the tag stripper never emits a `<`: inside a tag nothing is
emitted, and in copy state a `<` always opens a tag and is replaced by a
space. -/
theorem stripTagsAux_no_lt (l : List Char) : ∀ b, '<' ∉ stripTagsAux b l := by
  induction l with
  | nil =>
    intro b
    cases b <;> simp [stripTagsAux]
  | cons c rest ih =>
    intro b
    cases b
    · by_cases hc : c = '<'
      · subst hc
        simp only [stripTagsAux, if_pos rfl]
        intro hmem
        rcases List.mem_cons.mp hmem with h | h
        · exact absurd h (by decide)
        · exact ih true h
      · simp only [stripTagsAux, if_neg hc]
        intro hmem
        rcases List.mem_cons.mp hmem with h | h
        · exact hc h.symm
        · exact ih false h
    · by_cases hc : c = '>'
      · subst hc
        simp only [stripTagsAux, if_pos rfl]
        exact ih false
      · simp only [stripTagsAux, if_neg hc]
        exact ih true

/-- Helper: every character of the collapsed list is a character of the
input or the replacement space. -/
theorem collapseWsAux_mem (l : List Char) :
    ∀ b c, c ∈ collapseWsAux b l → c ∈ l ∨ c = ' ' := by
  induction l with
  | nil =>
    intro b c h
    simp [collapseWsAux] at h
  | cons a rest ih =>
    intro b c h
    by_cases ha : isWs a = true
    · cases b
      · simp only [collapseWsAux, ha, if_true, if_pos rfl] at h
        rcases List.mem_cons.mp h with h | h
        · exact Or.inr h
        · rcases ih true c h with h2 | h2
          · exact Or.inl (List.mem_cons_of_mem a h2)
          · exact Or.inr h2
      · simp only [collapseWsAux, ha, if_true, if_pos rfl] at h
        rcases ih true c h with h2 | h2
        · exact Or.inl (List.mem_cons_of_mem a h2)
        · exact Or.inr h2
    · simp only [collapseWsAux, if_neg ha] at h
      rcases List.mem_cons.mp h with h | h
      · exact Or.inl (by rw [h]; exact List.mem_cons_self a rest)
      · rcases ih false c h with h2 | h2
        · exact Or.inl (List.mem_cons_of_mem a h2)
        · exact Or.inr h2

/-- Helper: dropping trailing whitespace keeps a subset of the characters. -/
theorem dropTrailing_mem (l : List Char) : ∀ c, c ∈ dropTrailing l → c ∈ l := by
  induction l with
  | nil =>
    intro c h
    simp [dropTrailing] at h
  | cons a rest ih =>
    intro c h
    simp only [dropTrailing] at h
    cases hr : dropTrailing rest with
    | nil =>
      rw [hr] at h
      by_cases ha : isWs a = true
      · simp [ha] at h
      · simp [ha] at h
        rw [h]
        exact List.mem_cons_self a rest
    | cons d t =>
      rw [hr] at h
      simp at h
      rcases h with h | h
      · rw [h]
        exact List.mem_cons_self a rest
      · refine List.mem_cons_of_mem a (ih c ?_)
        rw [hr]
        simp [h]

/-- Helper: dropping a whitespace run keeps a subset of the characters. -/
theorem dropWhile_mem (p : Char → Bool) (l : List Char) :
    ∀ c, c ∈ List.dropWhile p l → c ∈ l := by
  induction l with
  | nil =>
    intro c h
    simp at h
  | cons a rest ih =>
    intro c h
    rw [List.dropWhile_cons] at h
    by_cases hp : p a = true
    · rw [if_pos hp] at h
      exact List.mem_cons_of_mem a (ih c h)
    · rw [if_neg hp] at h
      exact h

/-- Helper: starting inside a whitespace run, the collapsed output begins
with a non-whitespace character. -/
theorem collapseWsAux_true_head (l : List Char) :
    ∀ c, (collapseWsAux true l).head? = some c → isWs c = false := by
  induction l with
  | nil =>
    intro c h
    simp [collapseWsAux] at h
  | cons a rest ih =>
    intro c h
    by_cases ha : isWs a = true
    · simp only [collapseWsAux, ha, if_true, if_pos rfl] at h
      exact ih c h
    · simp only [collapseWsAux, if_neg ha, List.head?_cons] at h
      cases h
      cases hw : isWs a
      · rfl
      · exact absurd hw ha

/-- Helper: the collapsed output never contains two adjacent whitespace
characters. -/
theorem collapseWsAux_noAdj (l : List Char) :
    ∀ b, noAdjWs (collapseWsAux b l) = true := by
  induction l with
  | nil =>
    intro b
    simp [collapseWsAux, noAdjWs]
  | cons a rest ih =>
    intro b
    by_cases ha : isWs a = true
    · cases b
      · simp only [collapseWsAux, ha, if_true, if_pos rfl]
        cases hh : collapseWsAux true rest with
        | nil => simp [noAdjWs]
        | cons d t =>
          have hd : isWs d = false := collapseWsAux_true_head rest d (by rw [hh]; rfl)
          have hrest := ih true
          rw [hh] at hrest
          simp [noAdjWs, hd, hrest]
      · simp only [collapseWsAux, ha, if_true, if_pos rfl]
        exact ih true
    · simp only [collapseWsAux, if_neg ha]
      have hstep : isWs a = false := by
        cases hw : isWs a
        · rfl
        · exact absurd hw ha
      cases hh : collapseWsAux false rest with
      | nil => simp [noAdjWs]
      | cons d t =>
        have hrest := ih false
        rw [hh] at hrest
        simp [noAdjWs, hstep, hrest]

/-- Helper: any two consecutive characters of a tail are consecutive in the
whole list. -/
theorem noAdjWs_tail (a : Char) (l : List Char) (h : noAdjWs (a :: l) = true) :
    noAdjWs l = true := by
  cases l with
  | nil => rfl
  | cons b t =>
    simp only [noAdjWs, Bool.and_eq_true] at h
    exact h.2

/-- Helper: dropping a leading whitespace run preserves the absence of
adjacent whitespace pairs. -/
theorem dropWhile_noAdj (p : Char → Bool) (l : List Char) (h : noAdjWs l = true) :
    noAdjWs (List.dropWhile p l) = true := by
  induction l with
  | nil => simpa using h
  | cons a rest ih =>
    rw [List.dropWhile_cons]
    by_cases hp : p a = true
    · rw [if_pos hp]
      exact ih (noAdjWs_tail a rest h)
    · rw [if_neg hp]
      exact h

/-- Helper: dropping trailing whitespace either empties the list or keeps
its first character. -/
theorem dropTrailing_head (l : List Char) :
    dropTrailing l = [] ∨ (dropTrailing l).head? = l.head? := by
  cases l with
  | nil => exact Or.inl rfl
  | cons c rest =>
    simp only [dropTrailing]
    cases h : dropTrailing rest with
    | nil =>
      by_cases hc : isWs c = true
      · exact Or.inl (by simp [hc])
      · refine Or.inr ?_
        simp [hc]
    | cons d t => exact Or.inr (by simp)

/-- Helper: the last character left by the trailing-whitespace drop is not
whitespace. -/
theorem dropTrailing_getLast (l : List Char) :
    ∀ c, (dropTrailing l).getLast? = some c → isWs c = false := by
  induction l with
  | nil =>
    intro c h
    simp [dropTrailing] at h
  | cons a rest ih =>
    intro c h
    simp only [dropTrailing] at h
    cases hr : dropTrailing rest with
    | nil =>
      rw [hr] at h
      by_cases ha : isWs a = true
      · simp [ha] at h
      · simp [ha] at h
        cases h
        cases hw : isWs a
        · rfl
        · exact absurd hw ha
    | cons d t =>
      rw [hr] at h
      rw [List.getLast?_cons_cons] at h
      refine ih c ?_
      rw [hr]
      exact h

/-- Helper: dropping trailing whitespace preserves the absence of adjacent
whitespace pairs. -/
theorem dropTrailing_noAdj (l : List Char) (h : noAdjWs l = true) :
    noAdjWs (dropTrailing l) = true := by
  induction l with
  | nil => simpa using h
  | cons a rest ih =>
    have hrest := ih (noAdjWs_tail a rest h)
    simp only [dropTrailing]
    cases hr : dropTrailing rest with
    | nil =>
      by_cases ha : isWs a = true <;> simp [ha, noAdjWs]
    | cons d t =>
      rw [hr] at hrest
      rcases dropTrailing_head rest with h0 | h0
      · rw [h0] at hr
        cases hr
      · rw [hr] at h0
        cases rest with
        | nil => simp [dropTrailing] at hr
        | cons b t2 =>
          simp only [List.head?_cons] at h0
          cases h0
          simp only [noAdjWs, Bool.and_eq_true] at h
          simp [noAdjWs, hrest, h.1]

/-- Helper: the first character surviving `dropWhile p` does not satisfy
`p`. -/
theorem dropWhile_head_false (p : Char → Bool) (l : List Char) :
    ∀ c, (List.dropWhile p l).head? = some c → p c = false := by
  induction l with
  | nil =>
    intro c h
    simp at h
  | cons a rest ih =>
    intro c h
    rw [List.dropWhile_cons] at h
    by_cases hp : p a = true
    · rw [if_pos hp] at h
      exact ih c h
    · rw [if_neg hp] at h
      simp only [List.head?_cons] at h
      cases h
      cases hw : p a
      · rfl
      · exact absurd hw hp

/-- C7: the text extractor is the composition of the global tag-stripping
substitution, the whitespace-collapsing substitution and the final trim; it
maps `<html><body><p>Hello World</p></body></html>` to exactly
`Hello World`; and for every fetched body its output contains no `<` from a
tag, no two adjacent whitespace characters (every run is collapsed to one
space), and neither leading nor trailing whitespace. -/
theorem extractText_spec :
    extractText "<html><body><p>Hello World</p></body></html>" = "Hello World" ∧
    (∀ html : String,
      extractText html = String.mk (trimChars (collapseWs (stripTags html.data)))) ∧
    (∀ html : String, '<' ∉ (extractText html).data) ∧
    (∀ html : String, noAdjWs (extractText html).data = true) ∧
    (∀ html : String, noLeadingWs (extractText html).data = true ∧
      noTrailingWs (extractText html).data = true) := by
  refine ⟨by decide, fun _ => rfl, ?_, ?_, ?_⟩
  · intro html hmem
    have hdata : (extractText html).data = trimChars (collapseWs (stripTags html.data)) := rfl
    rw [hdata] at hmem
    have h1 : '<' ∈ collapseWs (stripTags html.data) :=
      dropWhile_mem isWs _ '<' (dropTrailing_mem _ '<' hmem)
    rcases collapseWsAux_mem _ false '<' h1 with h2 | h2
    · exact stripTagsAux_no_lt _ false h2
    · exact absurd h2 (by decide)
  · intro html
    have hdata : (extractText html).data = trimChars (collapseWs (stripTags html.data)) := rfl
    rw [hdata]
    exact dropTrailing_noAdj _ (dropWhile_noAdj isWs _ (collapseWsAux_noAdj _ false))
  · intro html
    constructor
    · show noLeadingWs (trimChars (collapseWs (stripTags html.data))) = true
      simp only [trimChars]
      cases hh : dropTrailing (List.dropWhile isWs (collapseWs (stripTags html.data))) with
      | nil => rfl
      | cons c t =>
        rcases dropTrailing_head (List.dropWhile isWs (collapseWs (stripTags html.data)))
          with h0 | h0
        · rw [h0] at hh
          cases hh
        · rw [hh] at h0
          simp only [List.head?_cons] at h0
          have hc : isWs c = false := dropWhile_head_false isWs _ c h0.symm
          simp [noLeadingWs, hc]
    · show noTrailingWs (trimChars (collapseWs (stripTags html.data))) = true
      cases hgl : (trimChars (collapseWs (stripTags html.data))).getLast? with
      | none => simp [noTrailingWs, hgl]
      | some c =>
        have hc : isWs c = false := dropTrailing_getLast _ c hgl
        simp [noTrailingWs, hgl, hc]

/-- Witness for C7 at a second concrete page: instantiating the universal
parts of the extractor theorem. -/
theorem extractText_spec_witness :
    ('<' ∉ (extractText "<div> a  b </div>").data) ∧
    noAdjWs (extractText "<div> a  b </div>").data = true ∧
    noLeadingWs (extractText "<div> a  b </div>").data = true :=
  ⟨extractText_spec.2.2.1 "<div> a  b </div>",
   extractText_spec.2.2.2.1 "<div> a  b </div>",
   (extractText_spec.2.2.2.2 "<div> a  b </div>").1⟩
